import Mathlib

/-!
A shallow embedding of `src/src/main.ts` (the clear-and-draw WebGPU script)
and of the unnamed clear-only variant `src/unnamed/part_000`.

Both scripts are straight-line top-level code calling the browser WebGPU API.
We embed them as functions from a host environment (whether `navigator.gpu`
exists, whether `requestAdapter` yields an adapter, whether
`canvas.getContext("webgpu")` yields a context, and which texture format
`getPreferredCanvasFormat` returns) to the list of observable host-API events
the script performs, in order, together with an optional terminal error:
either an `Error` thrown by the script itself (`throw new Error(...)`) or the
host TypeError raised when `context!.getCurrentTexture()` is evaluated with a
null context.

Scalar literals of the scripts (vertex coordinates, clear colors) are embedded
as exact rationals; no claim depends on float32 rounding.
-/

/-- `GPUBufferUsage.VERTEX` flag of the WebGPU API. -/
def GPUBufferUsage.VERTEX : Nat := 32

/-- `GPUBufferUsage.COPY_DST` flag of the WebGPU API. -/
def GPUBufferUsage.COPY_DST : Nat := 8

/-- Descriptor passed to `device.createBuffer`. -/
structure BufferDescriptor where
  label : String
  size : Nat
  usage : Nat
  deriving DecidableEq, Repr

/-- One entry of a vertex buffer layout's `attributes` array. -/
structure VertexAttribute where
  format : String
  offset : Nat
  shaderLocation : Nat
  deriving DecidableEq, Repr

/-- A `GPUVertexBufferLayout`. -/
structure VertexBufferLayout where
  arrayStride : Nat
  attributes : List VertexAttribute
  deriving DecidableEq, Repr

/-- Descriptor passed to `device.createShaderModule`. -/
structure ShaderModuleDescriptor where
  label : String
  code : String
  deriving DecidableEq, Repr

/-- The `vertex` stage of a render pipeline descriptor. -/
structure VertexStage where
  module : ShaderModuleDescriptor
  entryPoint : String
  buffers : List VertexBufferLayout
  deriving DecidableEq, Repr

/-- One entry of the `fragment.targets` array. -/
structure ColorTargetState where
  format : String
  deriving DecidableEq, Repr

/-- The `fragment` stage of a render pipeline descriptor. -/
structure FragmentStage where
  module : ShaderModuleDescriptor
  entryPoint : String
  targets : List ColorTargetState
  deriving DecidableEq, Repr

/-- Descriptor passed to `device.createRenderPipeline`. -/
structure RenderPipelineDescriptor where
  label : String
  layout : String
  vertex : VertexStage
  fragment : FragmentStage
  deriving DecidableEq, Repr

/-- The texture view used as render target. Both scripts build it as
`context!.getCurrentTexture().createView()`. -/
inductive GPUTextureView where
  | ofCurrentCanvasTexture
  deriving DecidableEq, Repr

/-- One entry of the `colorAttachments` array of a render pass descriptor. -/
structure ColorAttachment where
  view : GPUTextureView
  clearValue : List Rat
  loadOp : String
  storeOp : String
  deriving DecidableEq, Repr

/-- Descriptor passed to `encoder.beginRenderPass`. -/
structure RenderPassDescriptor where
  colorAttachments : List ColorAttachment
  deriving DecidableEq, Repr

/-- The host environment the scripts run in: which fallible host lookups
succeed, and the host's preferred canvas texture format. -/
structure HostEnv where
  gpuSupported : Bool
  adapterAvailable : Bool
  contextAvailable : Bool
  preferredFormat : String
  deriving DecidableEq, Repr

/-- How a run can terminate abnormally: an `Error` thrown by the script
itself, or the host TypeError raised when `context!.getCurrentTexture()` is
evaluated while `context` is null. -/
inductive ProgError where
  | thrown (msg : String)
  | typeErrorNullContext
  deriving DecidableEq, Repr

/-- Observable host-API events of a run, in program order. `checkNull s b`
records that the script tested host value `s` for absence (`b` = it was
absent); these tests are the scripts' `if (!navigator.gpu)`, `if (!adapter)`
and `context ? ... : null`. -/
inductive GpuEvent where
  | queryGpuSupport (supported : Bool)
  | checkNull (subject : String) (wasNull : Bool)
  | requestAdapter
  | requestDevice (dev : Nat)
  | getContext (present : Bool)
  | getPreferredCanvasFormat (format : String)
  | configureContext (dev : Nat) (format : String)
  | createBuffer (desc : BufferDescriptor)
  | writeBuffer (bufferLabel : String) (bufferOffset : Nat) (dataByteLength : Nat)
  | createShaderModule (desc : ShaderModuleDescriptor)
  | createRenderPipeline (desc : RenderPipelineDescriptor)
  | createCommandEncoder
  | beginRenderPass (desc : RenderPassDescriptor)
  | setPipeline (pipelineLabel : String)
  | setVertexBuffer (slot : Nat) (bufferLabel : String)
  | draw (vertexCount : Nat)
  | endPass
  | finishEncoder (cmdBuf : Nat)
  | submit (cmdBufs : List Nat)
  deriving DecidableEq, Repr

/-- The `verticies` Float32Array literal of `main.ts` (two triangles forming a
square), as exact rationals. -/
def verticies : List Rat :=
  [-0.8, -0.8,
    0.8, -0.8,
    0.8, 0.8,

   -0.8, -0.8,
    0.8, 0.8,
   -0.8, 0.8]

/-- `byteLength` of a Float32Array holding the given elements: 4 bytes each. -/
def float32ByteLength (data : List Rat) : Nat := 4 * data.length

/-- The descriptor `main.ts` passes to `device.createBuffer` for
`vertexBuffer`. -/
def vertexBuffer : BufferDescriptor :=
  { label := "Cell Verticies"
    size := float32ByteLength verticies
    usage := GPUBufferUsage.VERTEX ||| GPUBufferUsage.COPY_DST }

/-- `vertexBufferLayout` of `main.ts`. -/
def vertexBufferLayout : VertexBufferLayout :=
  { arrayStride := 8
    attributes := [{ format := "float32x2", offset := 0, shaderLocation := 0 }] }

/-- The inline WGSL source text of `main.ts` (the template literal passed as
`code`; the line continuation after `vec4f\x7b` elides that newline). -/
def cellShaderCode : String :=
  "\n\t@vertex\n\tfn vertexMain(@location(0) pos: vec2f) -> @builtin(position) vec4f \x7b\n\t\treturn vec4f(pos, 0 , 1);\n\t\x7d\n\n\t@fragment\n\tfn fragmentMain() -> @location(0) vec4f\x7b\t\treturn vec4f(0.1, 0.1, 0.1, 1);\n\n\n\t\x7d\n\n\n\t"

/-- The descriptor `main.ts` passes to `device.createShaderModule`. -/
def cellShaderModule : ShaderModuleDescriptor :=
  { label := "Cell shader", code := cellShaderCode }

/-- The descriptor `main.ts` passes to `device.createRenderPipeline`,
parameterized by `canvasFormat` (the host's preferred canvas format). -/
def cellPipeline (canvasFormat : String) : RenderPipelineDescriptor :=
  { label := "Cell pipeline"
    layout := "auto"
    vertex :=
      { module := cellShaderModule
        entryPoint := "vertexMain"
        buffers := [vertexBufferLayout] }
    fragment :=
      { module := cellShaderModule
        entryPoint := "fragmentMain"
        targets := [{ format := canvasFormat }] } }

/-- The render pass descriptor `main.ts` passes to `encoder.beginRenderPass`. -/
def mainRenderPass : RenderPassDescriptor :=
  { colorAttachments :=
      [{ view := GPUTextureView.ofCurrentCanvasTexture
         clearValue := [0.8, 0.9, 0.9, 1]
         loadOp := "clear"
         storeOp := "store" }] }

/-- The render pass descriptor of the clear-only variant
(`src/unnamed/part_000`). -/
def clearRenderPass : RenderPassDescriptor :=
  { colorAttachments :=
      [{ view := GPUTextureView.ofCurrentCanvasTexture
         clearValue := [0.8, 0.9, 0.9, 1]
         loadOp := "clear"
         storeOp := "store" }] }

/-- The run of `src/src/main.ts` in host environment `env`: the events it
performs, in order, and how it terminates. Follows the source line by line:
GPU-support check, adapter request and check, device request, `getContext` /
`getPreferredCanvasFormat` / context ternary, vertex buffer creation and
write, shader module, render pipeline, command encoder, render pass
(`context!.getCurrentTexture()` raises a TypeError when the context is null),
pass commands, finish, submit. -/
def run (env : HostEnv) : List GpuEvent × Option ProgError :=
  let t := [GpuEvent.queryGpuSupport env.gpuSupported,
            GpuEvent.checkNull "navigator.gpu" (!env.gpuSupported)]
  if !env.gpuSupported then
    (t, some (ProgError.thrown "WebGPU is not supported!"))
  else
    let t := t ++ [GpuEvent.requestAdapter,
                   GpuEvent.checkNull "adapter" (!env.adapterAvailable)]
    if !env.adapterAvailable then
      (t, some (ProgError.thrown "Failed to get adapter!"))
    else
      let t := t ++ [GpuEvent.requestDevice 0,
                     GpuEvent.getContext env.contextAvailable,
                     GpuEvent.getPreferredCanvasFormat env.preferredFormat,
                     GpuEvent.checkNull "context" (!env.contextAvailable)]
      let t := if env.contextAvailable then
                 t ++ [GpuEvent.configureContext 0 env.preferredFormat]
               else t
      let t := t ++ [GpuEvent.createBuffer vertexBuffer,
                     GpuEvent.writeBuffer vertexBuffer.label 0
                       (float32ByteLength verticies),
                     GpuEvent.createShaderModule cellShaderModule,
                     GpuEvent.createRenderPipeline
                       (cellPipeline env.preferredFormat),
                     GpuEvent.createCommandEncoder]
      if !env.contextAvailable then
        (t, some ProgError.typeErrorNullContext)
      else
        let t := t ++ [GpuEvent.beginRenderPass mainRenderPass,
                       GpuEvent.setPipeline (cellPipeline env.preferredFormat).label,
                       GpuEvent.setVertexBuffer 0 vertexBuffer.label,
                       GpuEvent.draw (verticies.length / 2),
                       GpuEvent.endPass,
                       GpuEvent.finishEncoder 0,
                       GpuEvent.submit [0]]
        (t, none)

/-- The run of the clear-only variant (`src/unnamed/part_000`) in host
environment `env`. Identical prelude; it creates the command encoder right
after the context ternary and records an empty clear pass. -/
def runClear (env : HostEnv) : List GpuEvent × Option ProgError :=
  let t := [GpuEvent.queryGpuSupport env.gpuSupported,
            GpuEvent.checkNull "navigator.gpu" (!env.gpuSupported)]
  if !env.gpuSupported then
    (t, some (ProgError.thrown "WebGPU is not supported!"))
  else
    let t := t ++ [GpuEvent.requestAdapter,
                   GpuEvent.checkNull "adapter" (!env.adapterAvailable)]
    if !env.adapterAvailable then
      (t, some (ProgError.thrown "Failed to get adapter!"))
    else
      let t := t ++ [GpuEvent.requestDevice 0,
                     GpuEvent.getContext env.contextAvailable,
                     GpuEvent.getPreferredCanvasFormat env.preferredFormat,
                     GpuEvent.checkNull "context" (!env.contextAvailable)]
      let t := if env.contextAvailable then
                 t ++ [GpuEvent.configureContext 0 env.preferredFormat]
               else t
      let t := t ++ [GpuEvent.createCommandEncoder]
      if !env.contextAvailable then
        (t, some ProgError.typeErrorNullContext)
      else
        let t := t ++ [GpuEvent.beginRenderPass clearRenderPass,
                       GpuEvent.endPass,
                       GpuEvent.finishEncoder 0,
                       GpuEvent.submit [0]]
        (t, none)

/-- Is this event one of the scripts' null/absence tests? -/
def GpuEvent.isCheckNull : GpuEvent → Bool
  | .checkNull _ _ => true
  | _ => false

/-- Is this event a call into the GPU host API (as opposed to one of the
scripts' own null tests)? -/
def GpuEvent.isApiCall (e : GpuEvent) : Bool := !e.isCheckNull

/-- Is this event a `device.queue.submit`? -/
def GpuEvent.isSubmit : GpuEvent → Bool
  | .submit _ => true
  | _ => false

/-- Is this event a `requestDevice`? -/
def GpuEvent.isRequestDevice : GpuEvent → Bool
  | .requestDevice _ => true
  | _ => false

/-- Is this event a `context.configure`? -/
def GpuEvent.isConfigure : GpuEvent → Bool
  | .configureContext _ _ => true
  | _ => false

/-- Is this event a `createCommandEncoder`? -/
def GpuEvent.isCreateCommandEncoder : GpuEvent → Bool
  | .createCommandEncoder => true
  | _ => false

/-- Is this event a `beginRenderPass`? -/
def GpuEvent.isBeginRenderPass : GpuEvent → Bool
  | .beginRenderPass _ => true
  | _ => false

/-- Is this event a `draw`? -/
def GpuEvent.isDraw : GpuEvent → Bool
  | .draw _ => true
  | _ => false

/-- Is this event an `encoder.finish`? -/
def GpuEvent.isFinishEncoder : GpuEvent → Bool
  | .finishEncoder _ => true
  | _ => false

/-- Is this event a `createShaderModule`? -/
def GpuEvent.isCreateShaderModule : GpuEvent → Bool
  | .createShaderModule _ => true
  | _ => false

/-- Is this event a `createRenderPipeline`? -/
def GpuEvent.isCreateRenderPipeline : GpuEvent → Bool
  | .createRenderPipeline _ => true
  | _ => false

/-- Is this event a `queue.writeBuffer`? -/
def GpuEvent.isWriteBuffer : GpuEvent → Bool
  | .writeBuffer _ _ _ => true
  | _ => false

/-- The events of `main.ts` that the clear-only variant does not perform:
creating and filling the vertex buffer, creating the shader module and the
pipeline, and the in-pass commands `setPipeline`, `setVertexBuffer`, `draw`. -/
def GpuEvent.isDrawSetup : GpuEvent → Bool
  | .createBuffer _ => true
  | .writeBuffer _ _ _ => true
  | .createShaderModule _ => true
  | .createRenderPipeline _ => true
  | .setPipeline _ => true
  | .setVertexBuffer _ _ => true
  | .draw _ => true
  | _ => false

/-- The run performed a queue submission. -/
def reachesSubmission (env : HostEnv) : Prop :=
  (run env).1.any GpuEvent.isSubmit = true

instance (env : HostEnv) : Decidable (reachesSubmission env) := by
  unfold reachesSubmission
  infer_instance

/-- The spec's observable call order (steps 1 through 9 of the overview,
expanded to individual host-API calls), given the host's preferred canvas
format `f`. -/
def specCallOrder (f : String) : List GpuEvent :=
  [GpuEvent.queryGpuSupport true,
   GpuEvent.requestAdapter,
   GpuEvent.requestDevice 0,
   GpuEvent.getContext true,
   GpuEvent.getPreferredCanvasFormat f,
   GpuEvent.configureContext 0 f,
   GpuEvent.createBuffer vertexBuffer,
   GpuEvent.writeBuffer vertexBuffer.label 0 (float32ByteLength verticies),
   GpuEvent.createShaderModule cellShaderModule,
   GpuEvent.createRenderPipeline (cellPipeline f),
   GpuEvent.createCommandEncoder,
   GpuEvent.beginRenderPass mainRenderPass,
   GpuEvent.setPipeline (cellPipeline f).label,
   GpuEvent.setVertexBuffer 0 vertexBuffer.label,
   GpuEvent.draw (verticies.length / 2),
   GpuEvent.endPass,
   GpuEvent.finishEncoder 0,
   GpuEvent.submit [0]]

/-- C1: every run of `main.ts` that reaches queue submission performs exactly
the spec's GPU-API call sequence, in that order: capability query, adapter,
device, context configuration with the preferred format, vertex buffer
creation and fill, shader module, render pipeline, command encoder and render
pass recording, submission. In particular the device precedes configuration,
the shader module precedes the pipeline, and the pipeline precedes the pass
commands. -/
theorem run_api_call_order (env : HostEnv) (h : reachesSubmission env) :
    (run env).1.filter GpuEvent.isApiCall = specCallOrder env.preferredFormat := by
  obtain ⟨g, a, c, f⟩ := env
  cases g <;> cases a <;> cases c <;>
    simp_all [reachesSubmission, run, specCallOrder, GpuEvent.isApiCall,
      GpuEvent.isCheckNull, GpuEvent.isSubmit]

/-- Witness for C1 at a concrete host environment. -/
theorem run_api_call_order_witness :
    reachesSubmission ⟨true, true, true, "bgra8unorm"⟩ ∧
      (run ⟨true, true, true, "bgra8unorm"⟩).1.filter GpuEvent.isApiCall =
        specCallOrder "bgra8unorm" :=
  ⟨by decide, run_api_call_order ⟨true, true, true, "bgra8unorm"⟩ (by decide)⟩

/-- C2: every successful run of `main.ts` creates exactly one command encoder
and finishes exactly one command buffer, records exactly one render pass whose
single color attachment uses loadOp "clear" and storeOp "store", issues
exactly one draw call, and submits exactly that one command buffer, once. -/
theorem run_single_command_buffer (env : HostEnv) (h : (run env).2 = none) :
    (run env).1.countP GpuEvent.isCreateCommandEncoder = 1 ∧
    (run env).1.filter GpuEvent.isFinishEncoder = [GpuEvent.finishEncoder 0] ∧
    (run env).1.filter GpuEvent.isBeginRenderPass =
      [GpuEvent.beginRenderPass mainRenderPass] ∧
    mainRenderPass.colorAttachments.length = 1 ∧
    (∀ att ∈ mainRenderPass.colorAttachments,
      att.loadOp = "clear" ∧ att.storeOp = "store") ∧
    (run env).1.countP GpuEvent.isDraw = 1 ∧
    (run env).1.filter GpuEvent.isSubmit = [GpuEvent.submit [0]] := by
  obtain ⟨g, a, c, f⟩ := env
  cases g <;> cases a <;> cases c <;>
    simp_all [run, mainRenderPass, GpuEvent.isCreateCommandEncoder,
      GpuEvent.isFinishEncoder, GpuEvent.isBeginRenderPass, GpuEvent.isDraw,
      GpuEvent.isSubmit]

/-- Witness for C2 at a concrete host environment. -/
theorem run_single_command_buffer_witness :
    (run ⟨true, true, true, "bgra8unorm"⟩).2 = none ∧
      (run ⟨true, true, true, "bgra8unorm"⟩).1.countP
        GpuEvent.isCreateCommandEncoder = 1 :=
  ⟨by decide,
    (run_single_command_buffer ⟨true, true, true, "bgra8unorm"⟩ (by decide)).1⟩

/-- C3: `main.ts` throws an `Error` of its own iff WebGPU support is missing
or the adapter request yields null; with missing support it throws
"WebGPU is not supported!" before any further host call, with a null adapter
it throws "Failed to get adapter!" before requesting a device, and no other
message is ever thrown. -/
theorem run_throws_iff (env : HostEnv) :
    ((∃ msg, (run env).2 = some (ProgError.thrown msg)) ↔
      (env.gpuSupported = false ∨ env.adapterAvailable = false)) ∧
    ((run env).2 = some (ProgError.thrown "WebGPU is not supported!") ↔
      env.gpuSupported = false) ∧
    ((run env).2 = some (ProgError.thrown "Failed to get adapter!") ↔
      (env.gpuSupported = true ∧ env.adapterAvailable = false)) ∧
    (env.gpuSupported = false →
      (run env).1 = [GpuEvent.queryGpuSupport false,
                     GpuEvent.checkNull "navigator.gpu" true]) ∧
    (env.gpuSupported = true → env.adapterAvailable = false →
      (run env).1 = [GpuEvent.queryGpuSupport true,
                     GpuEvent.checkNull "navigator.gpu" false,
                     GpuEvent.requestAdapter,
                     GpuEvent.checkNull "adapter" true]) ∧
    (∀ msg, (run env).2 = some (ProgError.thrown msg) →
      msg = "WebGPU is not supported!" ∨ msg = "Failed to get adapter!") := by
  obtain ⟨g, a, c, f⟩ := env
  cases g <;> cases a <;> cases c <;> simp [run]

/-- Witness for C3 at concrete host environments. -/
theorem run_throws_iff_witness :
    (run ⟨false, true, true, "bgra8unorm"⟩).2 =
      some (ProgError.thrown "WebGPU is not supported!") ∧
    (run ⟨true, false, true, "bgra8unorm"⟩).2 =
      some (ProgError.thrown "Failed to get adapter!") :=
  ⟨(run_throws_iff ⟨false, true, true, "bgra8unorm"⟩).2.1.mpr rfl,
   (run_throws_iff ⟨true, false, true, "bgra8unorm"⟩).2.2.1.mpr ⟨rfl, rfl⟩⟩

/-- C4 counterexample: the claim that no operation's result other than
`navigator.gpu` and the adapter is tested for null is false: in a fully
successful run `main.ts` performs three null tests, the third being the
ternary test of `canvas.getContext("webgpu")`'s result. -/
theorem run_has_context_null_check :
    GpuEvent.checkNull "context" false ∈
      (run ⟨true, true, true, "bgra8unorm"⟩).1 ∧
    (run ⟨true, true, true, "bgra8unorm"⟩).1.countP GpuEvent.isCheckNull = 3 := by
  decide

/-- C4 amended: the program performs at most three null/absence tests — the
GPU-support check and the adapter check, each of which aborts the program with
a thrown `Error` when it fails, and a third, non-aborting test of the canvas
context's result, after which the run always proceeds to create the vertex
buffer; no other value is tested. -/
theorem run_null_checks (env : HostEnv) :
    (∀ s b, GpuEvent.checkNull s b ∈ (run env).1 →
      s = "navigator.gpu" ∨ s = "adapter" ∨ s = "context") ∧
    ((∃ msg, (run env).2 = some (ProgError.thrown msg)) ↔
      (env.gpuSupported = false ∨ env.adapterAvailable = false)) ∧
    (env.gpuSupported = true → env.adapterAvailable = true →
      GpuEvent.checkNull "context" (!env.contextAvailable) ∈ (run env).1 ∧
      GpuEvent.createBuffer vertexBuffer ∈ (run env).1) := by
  obtain ⟨g, a, c, f⟩ := env
  cases g <;> cases a <;> cases c <;> simp [run] <;> tauto

/-- Witness for C4's amended theorem: with a null context the run still
reaches vertex-buffer creation (the context test does not abort). -/
theorem run_null_checks_witness :
    GpuEvent.checkNull "context" true ∈
        (run ⟨true, true, false, "bgra8unorm"⟩).1 ∧
      GpuEvent.createBuffer vertexBuffer ∈
        (run ⟨true, true, false, "bgra8unorm"⟩).1 :=
  (run_null_checks ⟨true, true, false, "bgra8unorm"⟩).2.2 rfl rfl

/-- C5: in every successful run the canvas surface is configured with the
device obtained from the adapter (device 0, the one `requestDevice` yields)
and with the format returned by `getPreferredCanvasFormat`, and that same
format is the format of the pipeline's single fragment color target. -/
theorem run_configure_uses_device_and_format (env : HostEnv)
    (h : (run env).2 = none) :
    (run env).1.filter GpuEvent.isRequestDevice = [GpuEvent.requestDevice 0] ∧
    (run env).1.filter GpuEvent.isConfigure =
      [GpuEvent.configureContext 0 env.preferredFormat] ∧
    GpuEvent.getPreferredCanvasFormat env.preferredFormat ∈ (run env).1 ∧
    (run env).1.filter GpuEvent.isCreateRenderPipeline =
      [GpuEvent.createRenderPipeline (cellPipeline env.preferredFormat)] ∧
    (cellPipeline env.preferredFormat).fragment.targets =
      [{ format := env.preferredFormat }] := by
  obtain ⟨g, a, c, f⟩ := env
  cases g <;> cases a <;> cases c <;>
    simp_all [run, cellPipeline, GpuEvent.isRequestDevice, GpuEvent.isConfigure,
      GpuEvent.isCreateRenderPipeline]

/-- Witness for C5 at a concrete host environment. -/
theorem run_configure_uses_device_and_format_witness :
    (run ⟨true, true, true, "bgra8unorm"⟩).2 = none ∧
      (run ⟨true, true, true, "bgra8unorm"⟩).1.filter GpuEvent.isConfigure =
        [GpuEvent.configureContext 0 "bgra8unorm"] :=
  ⟨by decide,
    (run_configure_uses_device_and_format ⟨true, true, true, "bgra8unorm"⟩
      (by decide)).2.1⟩

/-- C6: the vertex buffer's size is the byte length of the 12-element
Float32Array (48 bytes), its usage is VERTEX ||| COPY_DST, and in every
successful run the single `writeBuffer` call writes the whole array at offset
0, so offset plus data length equals the buffer size exactly. -/
theorem vertexBuffer_alloc_and_fill (env : HostEnv) (h : (run env).2 = none) :
    verticies.length = 12 ∧
    float32ByteLength verticies = 48 ∧
    vertexBuffer.size = float32ByteLength verticies ∧
    vertexBuffer.usage = (GPUBufferUsage.VERTEX ||| GPUBufferUsage.COPY_DST) ∧
    (run env).1.filter GpuEvent.isWriteBuffer =
      [GpuEvent.writeBuffer vertexBuffer.label 0 (float32ByteLength verticies)] ∧
    0 + float32ByteLength verticies = vertexBuffer.size := by
  obtain ⟨g, a, c, f⟩ := env
  cases g <;> cases a <;> cases c <;>
    simp_all [run, verticies, float32ByteLength, vertexBuffer,
      GpuEvent.isWriteBuffer]

/-- Witness for C6 at a concrete host environment. -/
theorem vertexBuffer_alloc_and_fill_witness :
    (run ⟨true, true, true, "bgra8unorm"⟩).2 = none ∧
      float32ByteLength verticies = 48 :=
  ⟨by decide,
    (vertexBuffer_alloc_and_fill ⟨true, true, true, "bgra8unorm"⟩
      (by decide)).2.1⟩

/-- C7: the render pipeline references the one shader module (compiled from
the inline source text) for both its vertex stage (entry point `vertexMain`)
and its fragment stage (entry point `fragmentMain`); its vertex-stage buffer
list is exactly the declared layout (arrayStride 8, one float32x2 attribute at
offset 0, shader location 0); and every successful run compiles exactly one
shader module. -/
theorem cellPipeline_references_shader_and_layout (env : HostEnv)
    (h : (run env).2 = none) :
    (cellPipeline env.preferredFormat).vertex.module = cellShaderModule ∧
    (cellPipeline env.preferredFormat).fragment.module = cellShaderModule ∧
    (cellPipeline env.preferredFormat).vertex.entryPoint = "vertexMain" ∧
    (cellPipeline env.preferredFormat).fragment.entryPoint = "fragmentMain" ∧
    (cellPipeline env.preferredFormat).vertex.buffers = [vertexBufferLayout] ∧
    vertexBufferLayout.arrayStride = 8 ∧
    vertexBufferLayout.attributes =
      [{ format := "float32x2", offset := 0, shaderLocation := 0 }] ∧
    cellShaderModule.code = cellShaderCode ∧
    (run env).1.countP GpuEvent.isCreateShaderModule = 1 := by
  obtain ⟨g, a, c, f⟩ := env
  cases g <;> cases a <;> cases c <;>
    simp_all [run, cellPipeline, cellShaderModule, vertexBufferLayout,
      GpuEvent.isCreateShaderModule]

/-- Witness for C7 at a concrete host environment. -/
theorem cellPipeline_references_shader_and_layout_witness :
    (run ⟨true, true, true, "bgra8unorm"⟩).2 = none ∧
      (run ⟨true, true, true, "bgra8unorm"⟩).1.countP
        GpuEvent.isCreateShaderModule = 1 :=
  ⟨by decide,
    (cellPipeline_references_shader_and_layout ⟨true, true, true, "bgra8unorm"⟩
      (by decide)).2.2.2.2.2.2.2.2⟩

/-- C8: when `getContext("webgpu")` yields null (but GPU and adapter are
available), the run skips `context.configure` entirely, yet still reaches
command-encoder creation and then dereferences the null context via the
non-null assertion in the render pass's color attachment, ending in the host
TypeError — the null check on the context does not make the later dereference
unreachable. -/
theorem run_null_context_still_dereferenced (f : String) :
    (∀ d fmt,
      GpuEvent.configureContext d fmt ∉ (run ⟨true, true, false, f⟩).1) ∧
    GpuEvent.createCommandEncoder ∈ (run ⟨true, true, false, f⟩).1 ∧
    (run ⟨true, true, false, f⟩).2 = some ProgError.typeErrorNullContext := by
  simp [run]

/-- Witness for C8 at a concrete host environment. -/
theorem run_null_context_still_dereferenced_witness :
    (run ⟨true, true, false, "bgra8unorm"⟩).2 =
      some ProgError.typeErrorNullContext :=
  (run_null_context_still_dereferenced "bgra8unorm").2.2

/-- C9: the draw call's vertex count is `verticies.length / 2 = 6`, and six
vertices at the declared arrayStride of 8 bytes occupy exactly the vertex
buffer's 48 bytes, so the draw covers precisely the uploaded data. -/
theorem draw_count_matches_buffer (env : HostEnv) (h : (run env).2 = none) :
    (run env).1.filter GpuEvent.isDraw =
      [GpuEvent.draw (verticies.length / 2)] ∧
    verticies.length / 2 = 6 ∧
    (verticies.length / 2) * vertexBufferLayout.arrayStride =
      vertexBuffer.size := by
  obtain ⟨g, a, c, f⟩ := env
  cases g <;> cases a <;> cases c <;>
    simp_all [run, verticies, vertexBufferLayout, vertexBuffer,
      float32ByteLength, GpuEvent.isDraw]

/-- Witness for C9 at a concrete host environment. -/
theorem draw_count_matches_buffer_witness :
    (run ⟨true, true, true, "bgra8unorm"⟩).2 = none ∧
      verticies.length / 2 = 6 :=
  ⟨by decide,
    (draw_count_matches_buffer ⟨true, true, true, "bgra8unorm"⟩ (by decide)).2.1⟩

/-- C10: in every host environment the clear-only variant's event trace is
exactly `main.ts`'s trace with the draw-setup events (vertex buffer creation
and fill, shader module, pipeline, setPipeline, setVertexBuffer, draw)
removed, and both terminate identically; the two render pass descriptors are
equal (same single color attachment: current-canvas view, clearValue
[0.8, 0.9, 0.9, 1], loadOp "clear", storeOp "store"); and on success both
share the identical 9-event initialization prefix (through `configure`) and
each submits exactly once. -/
theorem runClear_refines_run (env : HostEnv) :
    (runClear env).1 = (run env).1.filter (fun e => !(GpuEvent.isDrawSetup e)) ∧
    (runClear env).2 = (run env).2 ∧
    clearRenderPass = mainRenderPass ∧
    clearRenderPass.colorAttachments =
      [{ view := GPUTextureView.ofCurrentCanvasTexture,
         clearValue := [0.8, 0.9, 0.9, 1],
         loadOp := "clear", storeOp := "store" }] ∧
    ((run env).2 = none →
      (run env).1.take 9 = (runClear env).1.take 9 ∧
      (runClear env).1.filter GpuEvent.isBeginRenderPass =
        [GpuEvent.beginRenderPass clearRenderPass] ∧
      (runClear env).1.filter GpuEvent.isSubmit = [GpuEvent.submit [0]] ∧
      (run env).1.filter GpuEvent.isSubmit = [GpuEvent.submit [0]]) := by
  obtain ⟨g, a, c, f⟩ := env
  cases g <;> cases a <;> cases c <;>
    simp [run, runClear, clearRenderPass, mainRenderPass,
      GpuEvent.isDrawSetup, GpuEvent.isBeginRenderPass, GpuEvent.isSubmit]

/-- Witness for C10 at a concrete host environment. -/
theorem runClear_refines_run_witness :
    (runClear ⟨true, true, true, "bgra8unorm"⟩).1 =
      (run ⟨true, true, true, "bgra8unorm"⟩).1.filter
        (fun e => !(GpuEvent.isDrawSetup e)) ∧
    (run ⟨true, true, true, "bgra8unorm"⟩).1.take 9 =
      (runClear ⟨true, true, true, "bgra8unorm"⟩).1.take 9 :=
  ⟨(runClear_refines_run ⟨true, true, true, "bgra8unorm"⟩).1,
   ((runClear_refines_run ⟨true, true, true, "bgra8unorm"⟩).2.2.2.2
     (by decide)).1⟩
